import Mathlib

/-!
Shallow embedding of the `land` ink! smart contract (src/lib.rs).

The contract is a property-rental registry: the contract owner approves
properties for landlords, a landlord sets a price and approves a tenant,
and the tenant pays rent in a payable call that validates the payment,
forwards 90% of each full hundred to the landlord and records a
(timestamp, duration) timespan.

Modelling conventions:
- Machine integers are `Nat` with explicit range guards where the source
  performs checked arithmetic (`checked_div`, `checked_mul`,
  `try_into::<u64>`); a failed `.unwrap()` (a Rust panic, which traps the
  contract execution) is modelled as `none`.
- `ink_storage::Mapping` is a total function into `Option`.
- The host ledger context (caller, transferred value, block timestamp and
  the outcome of the value-transfer primitive) is an explicit `Env` record.
- Operations return their `Result` value together with the post state, the
  list of emitted events, and (for `pay_rent`) the list of successfully
  performed fund transfers.
-/

/-- Account identifiers (ink `AccountId`, opaque 32-byte ids), modelled abstractly. -/
abbrev AccountId := Nat

/-- Property identifiers (`pub type PropId = u64`). -/
abbrev PropId := Nat

/-- Balances (ink `Balance`, `u128` in the default environment). -/
abbrev Balance := Nat

/-- Block timestamps (ink `Timestamp`, `u64`). -/
abbrev Timestamp := Nat

/-- Rent durations in months (`pub type Duration = u64`). -/
abbrev Duration := Nat

/-- Share amounts (`pub type Share = u64`); the shareholders table is declared but unused. -/
abbrev Share := Nat

/-- Number of values of the 64-bit unsigned type. -/
def U64_MOD : Nat := 2 ^ 64

/-- Number of values of the 128-bit unsigned type. -/
def U128_MOD : Nat := 2 ^ 128

/-- Error enumeration of the contract (src/lib.rs, `enum Error`). -/
inductive Error where
  | NotEnoughRights
  | PropertyDoesntExist
  | UnsufficientRent
  | NotApprovedTenant
  | NoApprovedTenant
  | PriceIsntSet
  | FailedTransferFunds
  | TimespanDoesntExist
deriving DecidableEq, Repr

/-- Events emitted by the contract (`PropertyApproved`, `TenantApproved`, `PriceSet`). -/
inductive Event where
  | PropertyApproved (property : PropId) (landlord : AccountId)
  | TenantApproved (property : PropId) (tenant : AccountId)
  | PriceSet (property : PropId) (price : Balance)
deriving DecidableEq, Repr

/-- Storage mapping (`ink_storage::Mapping`): a total function into `Option`. -/
def Mapping (K V : Type) : Type := K → Option V

/-- Lookup (`Mapping::get`). -/
def Mapping.get {K V : Type} (m : Mapping K V) (k : K) : Option V := m k

/-- Pointwise insert (`Mapping::insert`), overwriting any previous value. -/
def Mapping.insert {K V : Type} [DecidableEq K] (m : Mapping K V) (k : K) (v : V) :
    Mapping K V :=
  fun x => if x = k then some v else m x

/-- Pointwise removal (`Mapping::remove`). -/
def Mapping.remove {K V : Type} [DecidableEq K] (m : Mapping K V) (k : K) :
    Mapping K V :=
  fun x => if x = k then none else m x

/-- The everywhere-undefined mapping (initial storage). -/
def Mapping.empty {K V : Type} : Mapping K V := fun _ => none

/-- Contract storage (src/lib.rs, `struct Land`). -/
structure Land where
  owner : AccountId
  last_property_id : PropId
  landlords : Mapping PropId AccountId
  tenants : Mapping PropId AccountId
  shareholders : Mapping (PropId × AccountId) Share
  prices : Mapping PropId Balance
  timespans : Mapping (PropId × AccountId) (Timestamp × Duration)

/-- Host ledger context for one call: caller identity, attached value,
block timestamp, and whether the value-transfer primitive succeeds for a
given recipient and amount. -/
structure Env where
  caller : AccountId
  transferred_value : Balance
  block_timestamp : Timestamp
  transfer_ok : AccountId → Balance → Bool

/-- Constructor (`Land::new` / `new_init`): records the instantiator as owner
and starts the property-id counter at 0. -/
def Land.new (owner : AccountId) : Land where
  owner := owner
  last_property_id := 0
  landlords := Mapping.empty
  tenants := Mapping.empty
  shareholders := Mapping.empty
  prices := Mapping.empty
  timespans := Mapping.empty

/-- Getter `get_landlord`: the landlord of a property, `PropertyDoesntExist` if absent. -/
def Land.get_landlord (s : Land) (property : PropId) : Except Error AccountId :=
  match s.landlords.get property with
  | none => .error .PropertyDoesntExist
  | some landlord => .ok landlord

/-- Getter `get_price`: the monthly price, `PriceIsntSet` if absent. -/
def Land.get_price (s : Land) (property : PropId) : Except Error Balance :=
  match s.prices.get property with
  | none => .error .PriceIsntSet
  | some price => .ok price

/-- Getter `get_tenant`: the approved tenant, `NoApprovedTenant` if absent. -/
def Land.get_tenant (s : Land) (property : PropId) : Except Error AccountId :=
  match s.tenants.get property with
  | none => .error .NoApprovedTenant
  | some tenant => .ok tenant

/-- Getter `get_timespan`: the recorded (timestamp, duration) pair for a
(property, tenant) key, `TimespanDoesntExist` if absent. -/
def Land.get_timespan (s : Land) (property : PropId) (tenant : AccountId) :
    Except Error (Timestamp × Duration) :=
  match s.timespans.get (property, tenant) with
  | none => .error .TimespanDoesntExist
  | some timespan => .ok timespan

/-- Checked unsigned division (`checked_div`): `none` exactly on a zero divisor. -/
def checked_div (a b : Nat) : Option Nat :=
  if b = 0 then none else some (a / b)

/-- Checked `u128` multiplication (`checked_mul` on `Balance`): `none` on overflow. -/
def checked_mul_u128 (a b : Nat) : Option Nat :=
  if a * b < U128_MOD then some (a * b) else none

/-- Checked `u64` addition (the overflow-checked `+= 1` on the id counter). -/
def checked_add_u64 (a b : Nat) : Option Nat :=
  if a + b < U64_MOD then some (a + b) else none

/-- Narrowing conversion to `u64` (`try_into::<u64>`): `none` when out of range. -/
def try_into_u64 (a : Nat) : Option Nat :=
  if a < U64_MOD then some a else none

/-- Operation `approve_property` (src/lib.rs lines 118-126): owner-only
registration of a new property for `landlord`. Returns `none` on the
(unreachable in practice) `u64` overflow of the id counter, otherwise the
result, post state and emitted events. -/
def Land.approve_property (s : Land) (env : Env) (landlord : AccountId) :
    Option (Except Error PropId × Land × List Event) :=
  if env.caller = s.owner then
    match checked_add_u64 s.last_property_id 1 with
    | none => none
    | some new_id =>
      some (.ok new_id,
        { s with
            last_property_id := new_id,
            landlords := s.landlords.insert new_id landlord },
        [Event.PropertyApproved new_id landlord])
  else
    some (.error .NotEnoughRights, s, [])

/-- Operation `remove_property` (src/lib.rs lines 131-143): looks up the
landlord, performs the clearing writes when the caller is the landlord or
the owner, and then falls through to `Err(NotEnoughRights)` unconditionally. -/
def Land.remove_property (s : Land) (env : Env) (property : PropId) :
    Except Error Unit × Land :=
  match s.landlords.get property with
  | none => (.error .PropertyDoesntExist, s)
  | some landlord =>
    if env.caller = landlord ∨ env.caller = s.owner then
      let s1 : Land := { s with landlords := s.landlords.remove property }
      let s2 : Land :=
        match s1.tenants.get property with
        | some tenant =>
          { s1 with
              tenants := s1.tenants.remove property,
              timespans := s1.timespans.remove (property, tenant) }
        | none => s1
      let s3 : Land := { s2 with prices := s2.prices.remove property }
      (.error .NotEnoughRights, s3)
    else
      (.error .NotEnoughRights, s)

/-- Operation `set_price` (src/lib.rs lines 148-156): landlord-only; writes the
price and emits `PriceSet`. -/
def Land.set_price (s : Land) (env : Env) (property : PropId) (price : Balance) :
    Except Error Unit × Land × List Event :=
  match s.landlords.get property with
  | none => (.error .PropertyDoesntExist, s, [])
  | some landlord =>
    if env.caller ≠ landlord then
      (.error .NotEnoughRights, s, [])
    else
      (.ok (), { s with prices := s.prices.insert property price },
        [Event.PriceSet property price])

/-- Operation `approve_tenant` (src/lib.rs lines 161-169): landlord-only;
overwrites the tenant entry and emits `TenantApproved`. -/
def Land.approve_tenant (s : Land) (env : Env) (property : PropId) (tenant : AccountId) :
    Except Error Unit × Land × List Event :=
  match s.landlords.get property with
  | none => (.error .PropertyDoesntExist, s, [])
  | some landlord =>
    if env.caller ≠ landlord then
      (.error .NotEnoughRights, s, [])
    else
      (.ok (), { s with tenants := s.tenants.insert property tenant },
        [Event.TenantApproved property tenant])

/-- Operation `pay_rent` (src/lib.rs lines 178-196). Validation order: price
set, attached value at least the price, tenant set, caller is the tenant;
then the landlord is resolved, `transferred_value / 100 * 90` is sent to the
landlord, and the timespan `(block_timestamp, transferred_value / price)` is
recorded. The `checked_div(price).unwrap()` on a zero price and the
`try_into::<u64>().unwrap()` on an oversized duration are panics, modelled
as `none`. The third component lists the fund transfers performed. -/
def Land.pay_rent (s : Land) (env : Env) (property : PropId) :
    Option (Except Error Unit × Land × List (AccountId × Balance)) :=
  match s.get_price property with
  | .error e => some (.error e, s, [])
  | .ok price =>
    if env.transferred_value < price then
      some (.error .UnsufficientRent, s, [])
    else
      match s.get_tenant property with
      | .error e => some (.error e, s, [])
      | .ok tenant =>
        if env.caller ≠ tenant then
          some (.error .NotApprovedTenant, s, [])
        else
          match s.get_landlord property with
          | .error e => some (.error e, s, [])
          | .ok landlord =>
            match checked_div env.transferred_value 100 with
            | none => none
            | some hundredth =>
              match checked_mul_u128 hundredth 90 with
              | none => none
              | some value_without_tax =>
                if env.transfer_ok landlord value_without_tax = false then
                  some (.error .FailedTransferFunds, s, [])
                else
                  match checked_div env.transferred_value price with
                  | none => none
                  | some quotient =>
                    match try_into_u64 quotient with
                    | none => none
                    | some duration =>
                      some (.ok (),
                        { s with
                            timespans := s.timespans.insert (property, tenant)
                              (env.block_timestamp, duration) },
                        [(landlord, value_without_tax)])

/-! Concrete fixtures used to instantiate the theorems: a contract owned by
account 0 with one approved property 1, landlord 10, price 12000, tenant 20
and an existing timespan record for (1, 20). -/

/-- Concrete state: property 1, landlord 10, price 12000, tenant 20, and a
timespan record (3, 7) for the pair (1, 20). -/
def testLand : Land where
  owner := 0
  last_property_id := 1
  landlords := Mapping.empty.insert 1 10
  tenants := Mapping.empty.insert 1 20
  shareholders := Mapping.empty
  prices := Mapping.empty.insert 1 12000
  timespans := Mapping.empty.insert (1, 20) (3, 7)

/-- Concrete call context: caller 20 (the tenant) attaching 24000 at
timestamp 5, with an always-succeeding transfer primitive. -/
def testEnv : Env where
  caller := 20
  transferred_value := 24000
  block_timestamp := 5
  transfer_ok := fun _ _ => true

/-- Concrete call context: caller 10 (the landlord), no attached value. -/
def envLandlord : Env where
  caller := 10
  transferred_value := 0
  block_timestamp := 5
  transfer_ok := fun _ _ => true

/-- Concrete call context: caller 0 (the contract owner), no attached value. -/
def envOwner : Env where
  caller := 0
  transferred_value := 0
  block_timestamp := 5
  transfer_ok := fun _ _ => true

/-- Concrete call context: caller 30 (a replacement tenant) attaching 24000. -/
def envB : Env where
  caller := 30
  transferred_value := 24000
  block_timestamp := 9
  transfer_ok := fun _ _ => true

/-- Concrete call context: caller 99 (an unrelated account). -/
def envStranger : Env where
  caller := 99
  transferred_value := 0
  block_timestamp := 5
  transfer_ok := fun _ _ => true

/-- Concrete call context like `testEnv` but with a transfer primitive that
always reports failure. -/
def testEnvBadTransfer : Env where
  caller := 20
  transferred_value := 24000
  block_timestamp := 5
  transfer_ok := fun _ _ => false

/-- Concrete state like `testLand` but with price 1 for property 1. -/
def landPrice1 : Land where
  owner := 0
  last_property_id := 1
  landlords := Mapping.empty.insert 1 10
  tenants := Mapping.empty.insert 1 20
  shareholders := Mapping.empty
  prices := Mapping.empty.insert 1 1
  timespans := Mapping.empty.insert (1, 20) (3, 7)

/-- Concrete state like `testLand` but with price 0 for property 1. -/
def landZeroPrice : Land where
  owner := 0
  last_property_id := 1
  landlords := Mapping.empty.insert 1 10
  tenants := Mapping.empty.insert 1 20
  shareholders := Mapping.empty
  prices := Mapping.empty.insert 1 0
  timespans := Mapping.empty.insert (1, 20) (3, 7)

/-- Concrete call context: caller 20 attaching 2 to the 64th units. -/
def envHuge : Env where
  caller := 20
  transferred_value := 2 ^ 64
  block_timestamp := 5
  transfer_ok := fun _ _ => true

/-! Basic lemmas about `Mapping`. -/

@[simp]
theorem Mapping.get_insert {K V : Type} [DecidableEq K] (m : Mapping K V) (k x : K) (v : V) :
    (m.insert k v).get x = if x = k then some v else m.get x := rfl

@[simp]
theorem Mapping.get_remove {K V : Type} [DecidableEq K] (m : Mapping K V) (k x : K) :
    (m.remove k).get x = if x = k then none else m.get x := rfl

/-! Helper lemmas characterising `pay_rent` on each control path. -/

/-- With no price record, `pay_rent` fails `PriceIsntSet` and changes nothing. -/
theorem pay_rent_no_price (s : Land) (env : Env) (p : PropId)
    (h : s.prices.get p = none) :
    s.pay_rent env p = some (.error .PriceIsntSet, s, []) := by
  simp [Land.pay_rent, Land.get_price, h]

/-- With the attached value below the price, `pay_rent` fails `UnsufficientRent`. -/
theorem pay_rent_low_value (s : Land) (env : Env) (p : PropId) (P : Balance)
    (hP : s.prices.get p = some P) (hlt : env.transferred_value < P) :
    s.pay_rent env p = some (.error .UnsufficientRent, s, []) := by
  simp [Land.pay_rent, Land.get_price, hP, hlt]

/-- With no tenant record (and the earlier checks passing), `pay_rent` fails
`NoApprovedTenant`. -/
theorem pay_rent_no_tenant (s : Land) (env : Env) (p : PropId) (P : Balance)
    (hP : s.prices.get p = some P) (hge : P ≤ env.transferred_value)
    (hT : s.tenants.get p = none) :
    s.pay_rent env p = some (.error .NoApprovedTenant, s, []) := by
  simp [Land.pay_rent, Land.get_price, Land.get_tenant, hP, hT, Nat.not_lt.mpr hge]

/-- With a tenant record different from the caller (and the earlier checks
passing), `pay_rent` fails `NotApprovedTenant`. -/
theorem pay_rent_wrong_tenant (s : Land) (env : Env) (p : PropId) (P : Balance)
    (T : AccountId) (hP : s.prices.get p = some P) (hge : P ≤ env.transferred_value)
    (hT : s.tenants.get p = some T) (hne : env.caller ≠ T) :
    s.pay_rent env p = some (.error .NotApprovedTenant, s, []) := by
  simp [Land.pay_rent, Land.get_price, Land.get_tenant, hP, hT, hne,
    Nat.not_lt.mpr hge]

/-- After all four validations pass and the landlord is resolved, `pay_rent`
reduces to the transfer attempt followed by the duration computation. -/
theorem pay_rent_tail (s : Land) (env : Env) (p : PropId) (P : Balance)
    (T L : AccountId)
    (hP : s.prices.get p = some P) (hT : s.tenants.get p = some T)
    (hL : s.landlords.get p = some L) (hc : env.caller = T)
    (hge : P ≤ env.transferred_value) (hV : env.transferred_value < U128_MOD) :
    s.pay_rent env p =
      (if env.transfer_ok L (env.transferred_value / 100 * 90) = false then
        some (.error .FailedTransferFunds, s, [])
      else if P = 0 then none
      else if env.transferred_value / P < U64_MOD then
        some (.ok (),
          { s with
              timespans := s.timespans.insert (p, T)
                (env.block_timestamp, env.transferred_value / P) },
          [(L, env.transferred_value / 100 * 90)])
      else none) := by
  have hmul : env.transferred_value / 100 * 90 < U128_MOD :=
    lt_of_le_of_lt
      (le_trans (Nat.mul_le_mul_left _ (by norm_num)) (Nat.div_mul_le_self _ 100))
      hV
  have hcT : ¬ env.caller ≠ T := by simp [hc]
  simp only [Land.pay_rent, Land.get_price, Land.get_tenant, Land.get_landlord,
    hP, hT, hL, Nat.not_lt.mpr hge, if_false, hcT, checked_div, checked_mul_u128,
    try_into_u64]
  by_cases htr : env.transfer_ok L (env.transferred_value / 100 * 90) = false <;>
    by_cases hP0 : P = 0 <;>
    by_cases hfit : env.transferred_value / P < U64_MOD <;>
    simp [htr, hP0, hfit, hmul]

/-- With all validations passed, a non-zero price, a fitting duration and a
succeeding transfer, `pay_rent` succeeds: it pays the landlord
`transferred_value / 100 * 90` and overwrites the timespan record. -/
theorem pay_rent_ok (s : Land) (env : Env) (p : PropId) (P : Balance)
    (T L : AccountId)
    (hP : s.prices.get p = some P) (hT : s.tenants.get p = some T)
    (hL : s.landlords.get p = some L) (hc : env.caller = T)
    (hge : P ≤ env.transferred_value) (hV : env.transferred_value < U128_MOD)
    (htr : env.transfer_ok L (env.transferred_value / 100 * 90) = true)
    (hP0 : P ≠ 0) (hfit : env.transferred_value / P < U64_MOD) :
    s.pay_rent env p =
      some (.ok (),
        { s with
            timespans := s.timespans.insert (p, T)
              (env.block_timestamp, env.transferred_value / P) },
        [(L, env.transferred_value / 100 * 90)]) := by
  rw [pay_rent_tail s env p P T L hP hT hL hc hge hV]
  simp [htr, hP0, hfit]

/-- With all validations passed but a failing transfer, `pay_rent` fails
`FailedTransferFunds` with the state unchanged. -/
theorem pay_rent_transfer_fails (s : Land) (env : Env) (p : PropId) (P : Balance)
    (T L : AccountId)
    (hP : s.prices.get p = some P) (hT : s.tenants.get p = some T)
    (hL : s.landlords.get p = some L) (hc : env.caller = T)
    (hge : P ≤ env.transferred_value) (hV : env.transferred_value < U128_MOD)
    (htr : env.transfer_ok L (env.transferred_value / 100 * 90) = false) :
    s.pay_rent env p = some (.error .FailedTransferFunds, s, []) := by
  rw [pay_rent_tail s env p P T L hP hT hL hc hge hV]
  simp [htr]

/-- With a stored price of zero and a succeeding transfer, `pay_rent` panics
on the unwrapped `checked_div` by zero. -/
theorem pay_rent_zero_price (s : Land) (env : Env) (p : PropId)
    (T L : AccountId)
    (hP : s.prices.get p = some 0) (hT : s.tenants.get p = some T)
    (hL : s.landlords.get p = some L) (hc : env.caller = T)
    (hV : env.transferred_value < U128_MOD)
    (htr : env.transfer_ok L (env.transferred_value / 100 * 90) = true) :
    s.pay_rent env p = none := by
  rw [pay_rent_tail s env p 0 T L hP hT hL hc (Nat.zero_le _) hV]
  simp [htr]

/-- With a duration quotient not fitting `u64`, `pay_rent` panics on the
unwrapped `try_into` conversion. -/
theorem pay_rent_duration_overflow (s : Land) (env : Env) (p : PropId)
    (P : Balance) (T L : AccountId)
    (hP : s.prices.get p = some P) (hT : s.tenants.get p = some T)
    (hL : s.landlords.get p = some L) (hc : env.caller = T)
    (hge : P ≤ env.transferred_value) (hV : env.transferred_value < U128_MOD)
    (htr : env.transfer_ok L (env.transferred_value / 100 * 90) = true)
    (hP0 : P ≠ 0) (hfit : ¬ env.transferred_value / P < U64_MOD) :
    s.pay_rent env p = none := by
  rw [pay_rent_tail s env p P T L hP hT hL hc hge hV]
  simp [htr, hP0, hfit]

/-! Helper lemmas characterising `remove_property` on each control path. -/

/-- With no landlord record, `remove_property` fails `PropertyDoesntExist`. -/
theorem remove_property_not_found (s : Land) (env : Env) (p : PropId)
    (h : s.landlords.get p = none) :
    s.remove_property env p = (.error .PropertyDoesntExist, s) := by
  simp [Land.remove_property, h]

/-- An authorized `remove_property` on a property with a tenant clears the
landlord, tenant, paired timespan and price entries, then reports
`NotEnoughRights` anyway. -/
theorem remove_property_auth_tenant (s : Land) (env : Env) (p : PropId)
    (L t : AccountId) (hL : s.landlords.get p = some L)
    (hauth : env.caller = L ∨ env.caller = s.owner)
    (ht : s.tenants.get p = some t) :
    s.remove_property env p =
      (.error .NotEnoughRights,
        { s with
            landlords := s.landlords.remove p,
            tenants := s.tenants.remove p,
            prices := s.prices.remove p,
            timespans := s.timespans.remove (p, t) }) := by
  unfold Land.remove_property
  rw [hL]
  dsimp only
  rw [if_pos hauth]
  rw [ht]

/-- An authorized `remove_property` on a property without a tenant clears the
landlord and price entries, then reports `NotEnoughRights` anyway. -/
theorem remove_property_auth_no_tenant (s : Land) (env : Env) (p : PropId)
    (L : AccountId) (hL : s.landlords.get p = some L)
    (hauth : env.caller = L ∨ env.caller = s.owner)
    (ht : s.tenants.get p = none) :
    s.remove_property env p =
      (.error .NotEnoughRights,
        { s with
            landlords := s.landlords.remove p,
            prices := s.prices.remove p }) := by
  unfold Land.remove_property
  rw [hL]
  dsimp only
  rw [if_pos hauth]
  rw [ht]

/-- An unauthorized `remove_property` fails `NotEnoughRights` without touching
the state. -/
theorem remove_property_unauth (s : Land) (env : Env) (p : PropId)
    (L : AccountId) (hL : s.landlords.get p = some L)
    (h1 : env.caller ≠ L) (h2 : env.caller ≠ s.owner) :
    s.remove_property env p = (.error .NotEnoughRights, s) := by
  unfold Land.remove_property
  rw [hL]
  dsimp only
  rw [if_neg (by tauto)]

/-! Helper lemmas for the remaining operations. -/

/-- A call by the owner registers a new property under the next id (when the
id counter does not overflow). -/
theorem approve_property_owner (s : Land) (env : Env) (a : AccountId)
    (h : env.caller = s.owner) (hlt : s.last_property_id + 1 < U64_MOD) :
    s.approve_property env a =
      some (.ok (s.last_property_id + 1),
        { s with
            last_property_id := s.last_property_id + 1,
            landlords := s.landlords.insert (s.last_property_id + 1) a },
        [Event.PropertyApproved (s.last_property_id + 1) a]) := by
  simp [Land.approve_property, h, checked_add_u64, hlt]

/-- A call by anyone but the owner fails `NotEnoughRights` with no state
change and no event. -/
theorem approve_property_not_owner (s : Land) (env : Env) (a : AccountId)
    (h : env.caller ≠ s.owner) :
    s.approve_property env a = some (.error .NotEnoughRights, s, []) := by
  simp [Land.approve_property, h]

/-- With no landlord record, `set_price` fails `PropertyDoesntExist`. -/
theorem set_price_not_found (s : Land) (env : Env) (p : PropId) (v : Balance)
    (h : s.landlords.get p = none) :
    s.set_price env p v = (.error .PropertyDoesntExist, s, []) := by
  simp [Land.set_price, h]

/-- A landlord `set_price` call writes the price and emits `PriceSet`. -/
theorem set_price_ok (s : Land) (env : Env) (p : PropId) (v : Balance)
    (L : AccountId) (hL : s.landlords.get p = some L) (hc : env.caller = L) :
    s.set_price env p v =
      (.ok (), { s with prices := s.prices.insert p v }, [Event.PriceSet p v]) := by
  simp [Land.set_price, hL, hc]

/-- A non-landlord `set_price` call fails `NotEnoughRights`. -/
theorem set_price_unauth (s : Land) (env : Env) (p : PropId) (v : Balance)
    (L : AccountId) (hL : s.landlords.get p = some L) (hc : env.caller ≠ L) :
    s.set_price env p v = (.error .NotEnoughRights, s, []) := by
  simp [Land.set_price, hL, hc]

/-- With no landlord record, `approve_tenant` fails `PropertyDoesntExist`. -/
theorem approve_tenant_not_found (s : Land) (env : Env) (p : PropId) (t : AccountId)
    (h : s.landlords.get p = none) :
    s.approve_tenant env p t = (.error .PropertyDoesntExist, s, []) := by
  simp [Land.approve_tenant, h]

/-- A landlord `approve_tenant` call overwrites the tenant entry and emits
`TenantApproved`; no other table is touched. -/
theorem approve_tenant_ok (s : Land) (env : Env) (p : PropId) (t : AccountId)
    (L : AccountId) (hL : s.landlords.get p = some L) (hc : env.caller = L) :
    s.approve_tenant env p t =
      (.ok (), { s with tenants := s.tenants.insert p t },
        [Event.TenantApproved p t]) := by
  simp [Land.approve_tenant, hL, hc]

/-- A non-landlord `approve_tenant` call fails `NotEnoughRights`. -/
theorem approve_tenant_unauth (s : Land) (env : Env) (p : PropId) (t : AccountId)
    (L : AccountId) (hL : s.landlords.get p = some L) (hc : env.caller ≠ L) :
    s.approve_tenant env p t = (.error .NotEnoughRights, s, []) := by
  simp [Land.approve_tenant, hL, hc]

/-- Shape of every `pay_rent` outcome: a panic, an error with the state
unchanged, or success with exactly one timespan record inserted. -/
theorem pay_rent_state_shape (s : Land) (env : Env) (p : PropId) :
    s.pay_rent env p = none ∨
    (∃ e tr, s.pay_rent env p = some (.error e, s, tr)) ∨
    (∃ T d tr, s.pay_rent env p =
      some (.ok (),
        { s with timespans := s.timespans.insert (p, T) (env.block_timestamp, d) },
        tr)) := by
  unfold Land.pay_rent
  repeat' split
  all_goals first
    | (left; rfl)
    | (right; left; exact ⟨_, _, rfl⟩)
    | (right; right; exact ⟨_, _, _, rfl⟩)

/-- Every `pay_rent` outcome that is not a panic leaves the id counter
unchanged. -/
theorem pay_rent_preserves_counter (s : Land) (env : Env) (p : PropId) :
    ∀ r s' tr, s.pay_rent env p = some (r, s', tr) → s'.last_property_id = s.last_property_id := by
  intro r s' tr h
  rcases pay_rent_state_shape s env p with h0 | ⟨e, tr2, h0⟩ | ⟨T, d, tr2, h0⟩ <;>
    rw [h0] at h
  · exact Option.noConfusion h
  · simp only [Option.some.injEq, Prod.mk.injEq] at h
    obtain ⟨h1, h2, h3⟩ := h
    rw [← h2]
  · simp only [Option.some.injEq, Prod.mk.injEq] at h
    obtain ⟨h1, h2, h3⟩ := h
    rw [← h2]

/-- A call by the owner panics when the id counter would overflow `u64`. -/
theorem approve_property_overflow (s : Land) (env : Env) (a : AccountId)
    (h : env.caller = s.owner) (hlt : ¬ s.last_property_id + 1 < U64_MOD) :
    s.approve_property env a = none := by
  simp [Land.approve_property, h, checked_add_u64, hlt]

/-! The claim theorems. -/

/-- C1: for a property with stored price `P`, approved tenant `T` and
landlord `L`, a `pay_rent` call by `T` attaching `V ≥ P` (with the duration
`V / P` well defined and fitting the `u64` duration type, and a succeeding
fund transfer) returns success, transfers exactly `V / 100 * 90` to `L` by
truncating integer division, and overwrites the timespan record for
`(property, T)` with the block timestamp and duration `V / P`. -/
theorem C1_pay_rent_success (s : Land) (env : Env) (p : PropId) (P : Balance)
    (T L : AccountId)
    (hP : s.prices.get p = some P) (hT : s.tenants.get p = some T)
    (hL : s.landlords.get p = some L) (hc : env.caller = T)
    (hge : P ≤ env.transferred_value) (hV : env.transferred_value < U128_MOD)
    (hP0 : P ≠ 0) (hfit : env.transferred_value / P < U64_MOD)
    (htr : env.transfer_ok L (env.transferred_value / 100 * 90) = true) :
    s.pay_rent env p =
      some (.ok (),
        { s with
            timespans := s.timespans.insert (p, T)
              (env.block_timestamp, env.transferred_value / P) },
        [(L, env.transferred_value / 100 * 90)]) ∧
    ({ s with
        timespans := s.timespans.insert (p, T)
          (env.block_timestamp, env.transferred_value / P) } : Land).timespans.get (p, T) =
      some (env.block_timestamp, env.transferred_value / P) := by
  refine ⟨pay_rent_ok s env p P T L hP hT hL hc hge hV htr hP0 hfit, ?_⟩
  simp

/-- Witness for C1: in the concrete fixture (price 12000, transferred value
24000) the call succeeds, the landlord receives 21600 and the duration is 2. -/
theorem C1_witness :
    testLand.pay_rent testEnv 1 =
      some (.ok (),
        { testLand with timespans := testLand.timespans.insert (1, 20) (5, 2) },
        [(10, 21600)]) := by
  exact (C1_pay_rent_success testLand testEnv 1 12000 20 10 (by decide) (by decide)
    (by decide) (by decide) (by decide) (by decide) (by decide) (by decide) rfl).1

/-- C2: `remove_property` never returns success: `PropertyDoesntExist` when
the property has no landlord entry, and `NotEnoughRights` in every other
case, including when the caller was authorized and the deletion branch ran. -/
theorem C2_remove_property_never_succeeds (s : Land) (env : Env) (p : PropId) :
    (s.remove_property env p).1 =
      (match s.landlords.get p with
       | none => Except.error Error.PropertyDoesntExist
       | some _ => Except.error Error.NotEnoughRights) := by
  cases hL : s.landlords.get p with
  | none => rw [remove_property_not_found s env p hL]
  | some L =>
    by_cases hauth : env.caller = L ∨ env.caller = s.owner
    · cases ht : s.tenants.get p with
      | none => rw [remove_property_auth_no_tenant s env p L hL hauth ht]
      | some t => rw [remove_property_auth_tenant s env p L t hL hauth ht]
    · push_neg at hauth
      rw [remove_property_unauth s env p L hL hauth.1 hauth.2]

/-- C3: an authorized `remove_property` performs the clearing writes (the
landlord entry, the tenant entry together with its paired timespan record
when a tenant is set, and the price entry) before reporting the error, while
an unauthorized call deletes nothing. -/
theorem C3_remove_property_clears_state (s : Land) (env : Env) (p : PropId)
    (L : AccountId) (hL : s.landlords.get p = some L) :
    ((env.caller = L ∨ env.caller = s.owner) →
      (s.remove_property env p).1 = .error .NotEnoughRights ∧
      (s.remove_property env p).2.landlords.get p = none ∧
      (s.remove_property env p).2.tenants.get p = none ∧
      (s.remove_property env p).2.prices.get p = none ∧
      (∀ t, s.tenants.get p = some t →
        (s.remove_property env p).2.timespans.get (p, t) = none) ∧
      (s.tenants.get p = none →
        (s.remove_property env p).2.timespans = s.timespans) ∧
      (∀ q, q ≠ p →
        (s.remove_property env p).2.landlords.get q = s.landlords.get q ∧
        (s.remove_property env p).2.tenants.get q = s.tenants.get q ∧
        (s.remove_property env p).2.prices.get q = s.prices.get q) ∧
      (∀ q t, q ≠ p →
        (s.remove_property env p).2.timespans.get (q, t) = s.timespans.get (q, t))) ∧
    (env.caller ≠ L → env.caller ≠ s.owner →
      (s.remove_property env p).2 = s) := by
  constructor
  · intro hauth
    cases ht : s.tenants.get p with
    | none =>
      rw [remove_property_auth_no_tenant s env p L hL hauth ht]
      refine ⟨rfl, by simp, by simpa using ht, by simp, ?_, fun _ => rfl, ?_, ?_⟩
      · intro t h
        exact Option.noConfusion h
      · intro q hq
        exact ⟨by simp [hq], rfl, by simp [hq]⟩
      · intro q t _
        rfl
    | some t =>
      rw [remove_property_auth_tenant s env p L t hL hauth ht]
      refine ⟨rfl, by simp, by simp, by simp, ?_, ?_, ?_, ?_⟩
      · intro t' h
        injection h with h
        subst h
        simp
      · intro h
        exact Option.noConfusion h
      · intro q hq
        exact ⟨by simp [hq], by simp [hq], by simp [hq]⟩
      · intro q t' hq
        simp [Prod.ext_iff, hq]
  · intro h1 h2
    rw [remove_property_unauth s env p L hL h1 h2]

/-- Witness for C3: the landlord's call on the concrete fixture clears all
four entries for property 1 yet still reports the error, and a stranger's
call changes nothing. -/
theorem C3_witness :
    (testLand.remove_property envLandlord 1).1 = .error .NotEnoughRights ∧
    (testLand.remove_property envLandlord 1).2.landlords.get 1 = none ∧
    (testLand.remove_property envLandlord 1).2.tenants.get 1 = none ∧
    (testLand.remove_property envLandlord 1).2.prices.get 1 = none ∧
    (testLand.remove_property envLandlord 1).2.timespans.get (1, 20) = none ∧
    (testLand.remove_property envStranger 1).2 = testLand := by
  have h := (C3_remove_property_clears_state testLand envLandlord 1 10 (by decide)).1
    (Or.inl rfl)
  have h2 := (C3_remove_property_clears_state testLand envStranger 1 10 (by decide)).2
    (by decide) (by decide)
  exact ⟨h.1, h.2.1, h.2.2.1, h.2.2.2.1, h.2.2.2.2.1 20 (by decide), h2⟩

/-- C4: `pay_rent` checks its preconditions in order - missing price yields
`PriceIsntSet` (even with no landlord entry), a value below the price yields
`UnsufficientRent`, a missing tenant yields `NoApprovedTenant`, and a caller
other than the tenant yields `NotApprovedTenant` - and each failure leaves
the store unchanged with no transfer performed. -/
theorem C4_pay_rent_error_order (s : Land) (env : Env) (p : PropId) :
    (s.prices.get p = none →
      s.pay_rent env p = some (.error .PriceIsntSet, s, [])) ∧
    (∀ P, s.prices.get p = some P → env.transferred_value < P →
      s.pay_rent env p = some (.error .UnsufficientRent, s, [])) ∧
    (∀ P, s.prices.get p = some P → P ≤ env.transferred_value →
      s.tenants.get p = none →
      s.pay_rent env p = some (.error .NoApprovedTenant, s, [])) ∧
    (∀ P T, s.prices.get p = some P → P ≤ env.transferred_value →
      s.tenants.get p = some T → env.caller ≠ T →
      s.pay_rent env p = some (.error .NotApprovedTenant, s, [])) :=
  ⟨fun h => pay_rent_no_price s env p h,
   fun P hP hlt => pay_rent_low_value s env p P hP hlt,
   fun P hP hge hT => pay_rent_no_tenant s env p P hP hge hT,
   fun P T hP hge hT hne => pay_rent_wrong_tenant s env p P T hP hge hT hne⟩

/-- Witness for C4: the freshly constructed contract (no landlord, no price)
reports `PriceIsntSet` for property 1, the fixture reports `UnsufficientRent`
for an attached value of 0, and a non-tenant caller gets `NotApprovedTenant`. -/
theorem C4_witness :
    (Land.new 0).pay_rent testEnv 1 = some (.error .PriceIsntSet, Land.new 0, []) ∧
    testLand.pay_rent envStranger 1 = some (.error .UnsufficientRent, testLand, []) ∧
    testLand.pay_rent envB 1 = some (.error .NotApprovedTenant, testLand, []) := by
  refine ⟨(C4_pay_rent_error_order (Land.new 0) testEnv 1).1 rfl, ?_, ?_⟩
  · exact (C4_pay_rent_error_order testLand envStranger 1).2.1 12000 (by decide) (by decide)
  · exact (C4_pay_rent_error_order testLand envB 1).2.2.2 12000 20 (by decide) (by decide)
      (by decide) (by decide)

/-- C5: with every validation passed, a failing transfer primitive makes
`pay_rent` return `FailedTransferFunds` with no store entry written - in
particular no timespan record. -/
theorem C5_pay_rent_transfer_failure (s : Land) (env : Env) (p : PropId)
    (P : Balance) (T L : AccountId)
    (hP : s.prices.get p = some P) (hT : s.tenants.get p = some T)
    (hL : s.landlords.get p = some L) (hc : env.caller = T)
    (hge : P ≤ env.transferred_value) (hV : env.transferred_value < U128_MOD)
    (htr : env.transfer_ok L (env.transferred_value / 100 * 90) = false) :
    s.pay_rent env p = some (.error .FailedTransferFunds, s, []) :=
  pay_rent_transfer_fails s env p P T L hP hT hL hc hge hV htr

/-- Witness for C5: on the concrete fixture with an always-failing transfer
primitive, `pay_rent` reports `FailedTransferFunds` and leaves the state
unchanged. -/
theorem C5_witness :
    testLand.pay_rent testEnvBadTransfer 1 =
      some (.error .FailedTransferFunds, testLand, []) :=
  C5_pay_rent_transfer_failure testLand testEnvBadTransfer 1 12000 20 10
    (by decide) (by decide) (by decide) (by decide) (by decide) (by decide) rfl

/-- C6: `approve_property` succeeds exactly for the owner (given the id
counter can still be incremented in `u64`): it increments the counter,
records the landlord under the new id, emits exactly one `PropertyApproved`
event and returns the new id, which is strictly larger than the previous
counter value; any other caller gets `NotEnoughRights` with no state change
and no event; the counter starts at 0, so ids start at 1. -/
theorem C6_approve_property_spec (s : Land) (env : Env) (a o : AccountId) :
    (env.caller = s.owner → s.last_property_id + 1 < U64_MOD →
      s.approve_property env a =
        some (.ok (s.last_property_id + 1),
          { s with
              last_property_id := s.last_property_id + 1,
              landlords := s.landlords.insert (s.last_property_id + 1) a },
          [Event.PropertyApproved (s.last_property_id + 1) a]) ∧
      s.last_property_id < s.last_property_id + 1) ∧
    (env.caller ≠ s.owner →
      s.approve_property env a = some (.error .NotEnoughRights, s, [])) ∧
    (Land.new o).last_property_id = 0 :=
  ⟨fun h hlt => ⟨approve_property_owner s env a h hlt, Nat.lt_succ_self _⟩,
   fun h => approve_property_not_owner s env a h,
   rfl⟩

/-- Witness for C6: on the concrete fixture the owner's call returns id 2
with one event, while a stranger's call fails `NotEnoughRights`. -/
theorem C6_witness :
    testLand.approve_property envOwner 11 =
      some (.ok 2,
        { testLand with
            last_property_id := 2,
            landlords := testLand.landlords.insert 2 11 },
        [Event.PropertyApproved 2 11]) ∧
    testLand.approve_property envStranger 11 =
      some (.error .NotEnoughRights, testLand, []) := by
  refine ⟨?_, ?_⟩
  · exact (C6_approve_property_spec testLand envOwner 11 0).1 rfl (by decide) |>.1
  · exact (C6_approve_property_spec testLand envStranger 11 0).2.1 (by decide)

/-- C7: the duration is `transferred_value / price` by truncating division,
narrowed to `u64`: when the quotient fits it is recorded as is, and when it
does not fit the call panics (modelled `none`) instead of wrapping, so no
wrapped duration is ever written. -/
theorem C7_duration_checked_narrowing (s : Land) (env : Env) (p : PropId)
    (P : Balance) (T L : AccountId)
    (hP : s.prices.get p = some P) (hT : s.tenants.get p = some T)
    (hL : s.landlords.get p = some L) (hc : env.caller = T)
    (hge : P ≤ env.transferred_value) (hV : env.transferred_value < U128_MOD)
    (hP0 : P ≠ 0)
    (htr : env.transfer_ok L (env.transferred_value / 100 * 90) = true) :
    (env.transferred_value / P < U64_MOD →
      s.pay_rent env p =
        some (.ok (),
          { s with
              timespans := s.timespans.insert (p, T)
                (env.block_timestamp, env.transferred_value / P) },
          [(L, env.transferred_value / 100 * 90)])) ∧
    (U64_MOD ≤ env.transferred_value / P → s.pay_rent env p = none) :=
  ⟨fun hfit => pay_rent_ok s env p P T L hP hT hL hc hge hV htr hP0 hfit,
   fun hbig => pay_rent_duration_overflow s env p P T L hP hT hL hc hge hV htr hP0
     (Nat.not_lt.mpr hbig)⟩

/-- Witness for C7: with price 1 and an attached value of 2 to the 64th the
quotient does not fit `u64` and the call panics, while the fitting fixture
records duration 2. -/
theorem C7_witness :
    landPrice1.pay_rent envHuge 1 = none ∧
    testLand.pay_rent testEnv 1 =
      some (.ok (),
        { testLand with timespans := testLand.timespans.insert (1, 20) (5, 2) },
        [(10, 21600)]) := by
  refine ⟨?_, ?_⟩
  · exact (C7_duration_checked_narrowing landPrice1 envHuge 1 1 20 10 (by decide)
      (by decide) (by decide) (by decide) (by decide) (by decide) (by decide) rfl).2
      (by decide)
  · exact (C7_duration_checked_narrowing testLand testEnv 1 12000 20 10 (by decide)
      (by decide) (by decide) (by decide) (by decide) (by decide) (by decide) rfl).1
      (by decide)

/-- C8: `set_price` accepts a price of 0; on a property with stored price 0,
an approved tenant's `pay_rent` call passes the value check for any attached
value and then panics on the unwrapped division by zero, returning neither
success nor an error value. -/
theorem C8_zero_price_divergence (s : Land) (env : Env) (p : PropId)
    (T L : AccountId)
    (hP : s.prices.get p = some 0) (hT : s.tenants.get p = some T)
    (hL : s.landlords.get p = some L) (hc : env.caller = T)
    (hV : env.transferred_value < U128_MOD)
    (htr : env.transfer_ok L (env.transferred_value / 100 * 90) = true) :
    s.pay_rent env p = none ∧
    ¬ env.transferred_value < 0 ∧
    (∀ (s2 : Land) (env2 : Env) (L2 : AccountId) (q : PropId),
      s2.landlords.get q = some L2 → env2.caller = L2 →
      s2.set_price env2 q 0 =
        (.ok (), { s2 with prices := s2.prices.insert q 0 },
          [Event.PriceSet q 0])) :=
  ⟨pay_rent_zero_price s env p T L hP hT hL hc hV htr,
   Nat.not_lt_zero _,
   fun s2 env2 L2 q h1 h2 => set_price_ok s2 env2 q 0 L2 h1 h2⟩

/-- Witness for C8: the landlord can set price 0 on the concrete fixture, and
the tenant's subsequent `pay_rent` panics. -/
theorem C8_witness :
    landZeroPrice.pay_rent testEnv 1 = none ∧
    testLand.set_price envLandlord 1 0 =
      (.ok (), { testLand with prices := testLand.prices.insert 1 0 },
        [Event.PriceSet 1 0]) := by
  have h := C8_zero_price_divergence landZeroPrice testEnv 1 20 10 (by decide)
    (by decide) (by decide) (by decide) (by decide) rfl
  exact ⟨h.1, h.2.2 testLand envLandlord 10 1 (by decide) rfl⟩

/-- C9: the last-issued id counter is monotonically non-decreasing under
every operation: only a successful `approve_property` changes it (to its
successor, which is the returned id), and `remove_property`, `set_price`,
`approve_tenant` and `pay_rent` leave it unchanged. -/
theorem C9_counter_monotone (s : Land) (env : Env) (p : PropId) (a : AccountId)
    (v : Balance) :
    (s.remove_property env p).2.last_property_id = s.last_property_id ∧
    (s.set_price env p v).2.1.last_property_id = s.last_property_id ∧
    (s.approve_tenant env p a).2.1.last_property_id = s.last_property_id ∧
    (∀ r s' tr, s.pay_rent env p = some (r, s', tr) →
      s'.last_property_id = s.last_property_id) ∧
    (∀ r s' ev, s.approve_property env a = some (r, s', ev) →
      s.last_property_id ≤ s'.last_property_id ∧
      ∀ i, r = .ok i →
        i = s.last_property_id + 1 ∧
        s'.last_property_id = s.last_property_id + 1) := by
  refine ⟨?_, ?_, ?_, pay_rent_preserves_counter s env p, ?_⟩
  · cases hL : s.landlords.get p with
    | none => rw [remove_property_not_found s env p hL]
    | some L =>
      by_cases hauth : env.caller = L ∨ env.caller = s.owner
      · cases ht : s.tenants.get p with
        | none => rw [remove_property_auth_no_tenant s env p L hL hauth ht]
        | some t => rw [remove_property_auth_tenant s env p L t hL hauth ht]
      · push_neg at hauth
        rw [remove_property_unauth s env p L hL hauth.1 hauth.2]
  · cases hL : s.landlords.get p with
    | none => rw [set_price_not_found s env p v hL]
    | some L =>
      by_cases hc : env.caller = L
      · rw [set_price_ok s env p v L hL hc]
      · rw [set_price_unauth s env p v L hL hc]
  · cases hL : s.landlords.get p with
    | none => rw [approve_tenant_not_found s env p a hL]
    | some L =>
      by_cases hc : env.caller = L
      · rw [approve_tenant_ok s env p a L hL hc]
      · rw [approve_tenant_unauth s env p a L hL hc]
  · intro r s' ev h
    by_cases hco : env.caller = s.owner
    · by_cases hlt : s.last_property_id + 1 < U64_MOD
      · rw [approve_property_owner s env a hco hlt] at h
        simp only [Option.some.injEq, Prod.mk.injEq] at h
        obtain ⟨h1, h2, h3⟩ := h
        refine ⟨?_, ?_⟩
        · rw [← h2]
          exact Nat.le_succ _
        · intro i hi
          rw [← h1] at hi
          injection hi with hi
          exact ⟨hi.symm, by rw [← h2]⟩
      · rw [approve_property_overflow s env a hco hlt] at h
        exact Option.noConfusion h
    · rw [approve_property_not_owner s env a hco] at h
      simp only [Option.some.injEq, Prod.mk.injEq] at h
      obtain ⟨h1, h2, h3⟩ := h
      refine ⟨by rw [← h2], ?_⟩
      intro i hi
      rw [← h1] at hi
      exact Except.noConfusion hi

/-- Witness for C9: on the concrete fixture the landlord's removal call and
price update leave the counter at 1, and the owner's approval call issues
id 2 = 1 + 1. -/
theorem C9_witness :
    (testLand.remove_property envLandlord 1).2.last_property_id =
      testLand.last_property_id ∧
    (testLand.set_price envLandlord 1 500).2.1.last_property_id =
      testLand.last_property_id ∧
    (2 : PropId) = testLand.last_property_id + 1 := by
  have h := C9_counter_monotone testLand envLandlord 1 11 500
  have h2 := (C9_counter_monotone testLand envOwner 1 11 500).2.2.2.2
    (.ok 2)
    { testLand with
        last_property_id := 2,
        landlords := testLand.landlords.insert 2 11 }
    [Event.PropertyApproved 2 11]
    (approve_property_owner testLand envOwner 11 rfl (by decide))
  exact ⟨h.1, h.2.1, (h2.2 2 rfl).1⟩

/-- C10: a successful `approve_tenant` overwrites the single tenant entry and
leaves every timespan record unchanged, including the replaced tenant's; the
old tenant's record stays readable through `get_timespan`, the new tenant's
`pay_rent` is accepted, and the old tenant's `pay_rent` now fails
`NotApprovedTenant`. -/
theorem C10_approve_tenant_overwrites (s : Land) (envL env2 env3 : Env)
    (p : PropId) (L A B : AccountId) (rec : Timestamp × Duration) (P : Balance)
    (hL : s.landlords.get p = some L) (hcL : envL.caller = L) :
    s.approve_tenant envL p B =
      (.ok (), { s with tenants := s.tenants.insert p B },
        [Event.TenantApproved p B]) ∧
    ({ s with tenants := s.tenants.insert p B } : Land).timespans = s.timespans ∧
    (s.timespans.get (p, A) = some rec →
      ({ s with tenants := s.tenants.insert p B } : Land).get_timespan p A = .ok rec) ∧
    (s.prices.get p = some P → P ≤ env2.transferred_value →
      env2.transferred_value < U128_MOD → P ≠ 0 →
      env2.transferred_value / P < U64_MOD → env2.caller = B →
      env2.transfer_ok L (env2.transferred_value / 100 * 90) = true →
      ({ s with tenants := s.tenants.insert p B } : Land).pay_rent env2 p =
        some (.ok (),
          { s with
              tenants := s.tenants.insert p B,
              timespans := s.timespans.insert (p, B)
                (env2.block_timestamp, env2.transferred_value / P) },
          [(L, env2.transferred_value / 100 * 90)])) ∧
    (s.prices.get p = some P → P ≤ env3.transferred_value →
      env3.caller = A → A ≠ B →
      ({ s with tenants := s.tenants.insert p B } : Land).pay_rent env3 p =
        some (.error .NotApprovedTenant,
          { s with tenants := s.tenants.insert p B }, [])) := by
  refine ⟨approve_tenant_ok s envL p B L hL hcL, rfl, ?_, ?_, ?_⟩
  · intro h
    simp [Land.get_timespan, h]
  · intro hP hge hV hP0 hfit hcB htr
    exact pay_rent_ok { s with tenants := s.tenants.insert p B } env2 p P B L
      (by simpa using hP) (by simp) (by simpa using hL) hcB hge hV htr hP0 hfit
  · intro hP hge hcA hAB
    exact pay_rent_wrong_tenant { s with tenants := s.tenants.insert p B } env3 p P B
      (by simpa using hP) hge (by simp) (by rw [hcA]; exact hAB)

/-- Witness for C10: on the concrete fixture (tenant 20 with a recorded
timespan) the landlord re-approves tenant 30; the old record for 20 is still
readable, tenant 30's payment succeeds, and tenant 20's payment now fails
`NotApprovedTenant`. -/
theorem C10_witness :
    testLand.approve_tenant envLandlord 1 30 =
      (.ok (), { testLand with tenants := testLand.tenants.insert 1 30 },
        [Event.TenantApproved 1 30]) ∧
    ({ testLand with tenants := testLand.tenants.insert 1 30 } : Land).get_timespan 1 20 =
      .ok (3, 7) ∧
    ({ testLand with tenants := testLand.tenants.insert 1 30 } : Land).pay_rent envB 1 =
      some (.ok (),
        { testLand with
            tenants := testLand.tenants.insert 1 30,
            timespans := testLand.timespans.insert (1, 30) (9, 2) },
        [(10, 21600)]) ∧
    ({ testLand with tenants := testLand.tenants.insert 1 30 } : Land).pay_rent testEnv 1 =
      some (.error .NotApprovedTenant,
        { testLand with tenants := testLand.tenants.insert 1 30 }, []) := by
  have h := C10_approve_tenant_overwrites testLand envLandlord envB testEnv 1 10 20 30
    (3, 7) 12000 (by decide) rfl
  exact ⟨h.1, h.2.2.1 (by decide),
    h.2.2.2.1 (by decide) (by decide) (by decide) (by decide) (by decide) rfl rfl,
    h.2.2.2.2 (by decide) (by decide) rfl (by decide)⟩
